import Mathlib

/-!
Shallow embedding of the `response` Go package (otyang/go-response):
`api_response.go` (the `APIResponse` envelope and its constructors and
JSON serialization) and the JSON-decode-error classifier
`IsJsonErrorGetDetails`.

Conventions of the embedding:
* Go `int` / `int64` are `Int`.
* A Go `any` field is a `Json` value; the Go `nil` interface is `Json.null`
  (the only representation of JSON null / "unset" for such a field).
* A Go `*string` field is `Option String`; the nil pointer is `none`.
* A function that can panic returns `Option _`, with `none` for the panic.
* `encoding/json` marshalling is modelled at the level of structured JSON
  values (field lists with the struct-tag rules, `omitempty` included)
  rather than character-level text; unmarshalling consumes such a value and
  returns `none` where `json.Unmarshal` would return an error.
-/

namespace GoResponse

/-- A JSON value, the model of Go `any` payloads handled by `encoding/json`.
`null` doubles as the Go nil interface. Numbers are modelled as integers;
nothing in this development depends on the numeric representation. -/
inductive Json where
  | null : Json
  | bool (b : Bool) : Json
  | num (n : Int) : Json
  | str (s : String) : Json
  | arr (elems : List Json) : Json
  | obj (fields : List (String × Json)) : Json

/-- Whether a `Json` value is the Go nil interface; `encoding/json`'s
`omitempty` omits an `any` field exactly when it is nil. -/
def Json.isNull : Json → Bool
  | .null => true
  | _ => false

/-- The `APIResponse` struct of `api_response.go`:
`StatusCode int` (json tag `-`), `Success bool` (`success`),
`Message string` (`message`), `ErrorCode *string` (`errorCode,omitempty`),
`Data any` (`data,omitempty`), `Meta any` (`meta,omitempty`). -/
structure APIResponse where
  StatusCode : Int
  Success : Bool
  Message : String
  ErrorCode : Option String
  Data : Json
  Meta : Json

/-- Go `unicode.IsSpace`: the White_Space code points
(U+0009–U+000D, space, U+0085, U+00A0 and the higher Unicode spaces). -/
def goIsSpace (c : Char) : Bool :=
  let n := c.toNat
  (9 ≤ n && n ≤ 13) || n = 32 || n = 0x85 || n = 0xA0 || n = 0x1680 ||
    (0x2000 ≤ n && n ≤ 0x200A) || n = 0x2028 || n = 0x2029 ||
    n = 0x202F || n = 0x205F || n = 0x3000

/-- Go `strings.TrimSpace`: drop leading and trailing white space. -/
def trimSpace (s : String) : String :=
  ⟨((s.data.dropWhile goIsSpace).reverse.dropWhile goIsSpace).reverse⟩

/-- `NewAPIResponse(statusCode, success, msg, errorCode, data)`: the raw
constructor. `errorCode` becomes the nil pointer when its trimmed form is
empty, and is stored verbatim (untrimmed) otherwise. `Meta` is not set. -/
def NewAPIResponse (statusCode : Int) (success : Bool)
    (msg errorCode : String) (data : Json) : APIResponse :=
  { StatusCode := statusCode
    Success := success
    Message := msg
    ErrorCode := if trimSpace errorCode = "" then none else some errorCode
    Data := data
    Meta := .null }

/-- `Error(statusCode, msg, errorCode)`: panics (`none`) when
`statusCode < http.StatusBadRequest` (400); otherwise delegates to
`NewAPIResponse` with `success := false` and nil data. -/
def Error (statusCode : Int) (msg errorCode : String) : Option APIResponse :=
  if statusCode < 400 then
    none
  else
    some (NewAPIResponse statusCode false msg errorCode .null)

/-- `Success(statusCode, msg, data)`: panics (`none`) when
`statusCode >= http.StatusBadRequest` (400); defaults an empty message to
"Request was successful"; delegates with `success := true` and empty
error code. -/
def Success (statusCode : Int) (msg : String) (data : Json) :
    Option APIResponse :=
  if statusCode ≥ 400 then
    none
  else
    some (NewAPIResponse statusCode true
      (if msg = "" then "Request was successful" else msg) "" data)

/-- `List(msg, data, meta)` (named `ListResp` here because `List` is taken
by Lean's list type): defaults an empty message, builds a 200 success
envelope through `NewAPIResponse`, then assigns `Meta` directly. -/
def ListResp (msg : String) (data meta : Json) : APIResponse :=
  let rsp := NewAPIResponse 200 true
    (if msg = "" then "Request was successful" else msg) "" data
  { rsp with Meta := meta }

/-- `ToJson()` / `json.Marshal` of an `APIResponse`, modelled at the level
of the produced JSON object. Per the struct tags: `StatusCode` is skipped
(tag `-`); `success` and `message` are always emitted; `errorCode` is
emitted unless the pointer is nil (`omitempty` on a pointer tests nil, not
the pointee); `data` and `meta` are emitted unless the interface is nil.
Fields appear in struct order. The serializer emits each key once. -/
def ToJson (r : APIResponse) : Json :=
  .obj ([("success", .bool r.Success), ("message", .str r.Message)]
    ++ (match r.ErrorCode with
        | some c => [("errorCode", .str c)]
        | none => [])
    ++ (if r.Data.isNull then [] else [("data", r.Data)])
    ++ (if r.Meta.isNull then [] else [("meta", r.Meta)]))

/-- The zero value of the `APIResponse` struct, the starting point of
`json.Unmarshal` into a fresh variable. -/
def zeroAPIResponse : APIResponse :=
  { StatusCode := 0
    Success := false
    Message := ""
    ErrorCode := none
    Data := .null
    Meta := .null }

/-- One step of `json.Unmarshal` into an `APIResponse` for one object
member, following the struct tags. JSON null leaves a non-pointer target
unchanged and sets a pointer or interface target to nil; a JSON value of
the wrong shape for `bool`/`string`/`*string` is an `UnmarshalTypeError`
(`none`); `statusCode` has tag `-` so the key is unknown; unknown keys are
ignored. (Go also matches keys case-insensitively and lets a duplicate key
overwrite; neither is exercised here since the serializer emits each tag
name once, exactly.) -/
def applyField (acc : Option APIResponse) (kv : String × Json) :
    Option APIResponse :=
  match acc with
  | none => none
  | some r =>
    let (k, v) := kv
    if k = "success" then
      match v with
      | .bool b => some { r with Success := b }
      | .null => some r
      | _ => none
    else if k = "message" then
      match v with
      | .str s => some { r with Message := s }
      | .null => some r
      | _ => none
    else if k = "errorCode" then
      match v with
      | .str s => some { r with ErrorCode := some s }
      | .null => some { r with ErrorCode := none }
      | _ => none
    else if k = "data" then
      some { r with Data := v }
    else if k = "meta" then
      some { r with Meta := v }
    else
      some r

/-- `FromJsonToAPIResponse` / `json.Unmarshal` of a JSON value into an
`APIResponse`: JSON null leaves the zero struct; an object is folded
member by member; any other JSON value is an `UnmarshalTypeError`
(`none`). -/
def FromJsonToAPIResponse (j : Json) : Option APIResponse :=
  match j with
  | .null => some zeroAPIResponse
  | .obj fields => fields.foldl applyField (some zeroAPIResponse)
  | _ => none

/-! ## The JSON-decode-error classifier (`utils.go`) -/

/-- Go error values as seen by `IsJsonErrorGetDetails`. Leaves:
`*json.SyntaxError` (its `msg` and `Offset` fields; the struct has no
further fields), `*json.UnmarshalTypeError` (its `Field` and `Offset`
fields; the Go struct also carries `Value`, `Type` and `Struct`, which
this code never reads), the sentinels `io.EOF` and `io.ErrUnexpectedEOF`,
and `errors.New`/`fmt.Errorf` errors. `wrapf` is `fmt.Errorf` with one
`%w` verb; `wrapf2` with two (Go ≥1.20), whose `Unwrap() []error` yields
both operands in order. -/
inductive GoError where
  | syntaxError (msg : String) (offset : Int) : GoError
  | unmarshalTypeError (field : String) (offset : Int) : GoError
  | eof : GoError
  | errUnexpectedEOF : GoError
  | generic (msg : String) : GoError
  | wrapf (msg : String) (inner : GoError) : GoError
  | wrapf2 (msg : String) (e1 e2 : GoError) : GoError
deriving DecidableEq, Repr

/-- `errors.Is(err, io.EOF)`: pre-order walk of the unwrap tree testing
identity with the sentinel. -/
def errorsIsEOF : GoError → Bool
  | .eof => true
  | .wrapf _ e => errorsIsEOF e
  | .wrapf2 _ a b => errorsIsEOF a || errorsIsEOF b
  | _ => false

/-- `errors.Is(err, io.ErrUnexpectedEOF)`. -/
def errorsIsUnexpectedEOF : GoError → Bool
  | .errUnexpectedEOF => true
  | .wrapf _ e => errorsIsUnexpectedEOF e
  | .wrapf2 _ a b => errorsIsUnexpectedEOF a || errorsIsUnexpectedEOF b
  | _ => false

/-- `errors.As(err, &syntaxError)`: pre-order walk of the unwrap tree for
the first `*json.SyntaxError`, yielding its fields. -/
def errorsAsSyntaxError : GoError → Option (String × Int)
  | .syntaxError m o => some (m, o)
  | .wrapf _ e => errorsAsSyntaxError e
  | .wrapf2 _ a b => (errorsAsSyntaxError a).orElse fun _ => errorsAsSyntaxError b
  | _ => none

/-- `errors.As(err, &unmarshalTypeError)`: first
`*json.UnmarshalTypeError` in the unwrap tree, yielding `(Field, Offset)`. -/
def errorsAsUnmarshalTypeError : GoError → Option (String × Int)
  | .unmarshalTypeError f o => some (f, o)
  | .wrapf _ e => errorsAsUnmarshalTypeError e
  | .wrapf2 _ a b =>
      (errorsAsUnmarshalTypeError a).orElse fun _ => errorsAsUnmarshalTypeError b
  | _ => none

/-- Go `%q` applied to the `Field` string: the field in double quotes.
(Go additionally backslash-escapes quotes, backslashes and
non-printables; the fields this code formats are plain identifiers, for
which `%q` is exactly quote–verbatim–quote.) -/
def goQuote (s : String) : String :=
  "\"" ++ s ++ "\""

/-- `IsJsonErrorGetDetails(err)`: `nil` input yields `(false, nil)`;
otherwise a switch, first match wins: `errors.As` syntax error, then
`errors.Is` unexpected EOF, then `errors.As` unmarshal type error, then
`errors.Is` EOF, then the original error unchanged. The diagnostic
results are fresh `fmt.Errorf`/`errors.New` errors. -/
def IsJsonErrorGetDetails (err : Option GoError) : Bool × Option GoError :=
  match err with
  | none => (false, none)
  | some e =>
    match errorsAsSyntaxError e with
    | some (_, off) =>
        (true, some (.generic
          ("body contains badly-formed JSON (at character " ++
            toString off ++ ")")))
    | none =>
      if errorsIsUnexpectedEOF e then
        (true, some (.generic "body contains badly-formed JSON"))
      else
        match errorsAsUnmarshalTypeError e with
        | some (f, off) =>
            (true, some (.generic
              ("body contains incorrect JSON type [for field " ++
                goQuote f ++ "] (at character " ++ toString off ++ ")")))
        | none =>
          if errorsIsEOF e then
            (true, some (.generic "body must not be empty"))
          else
            (false, some e)

/-! ## Helper lemmas -/

theorem trimSpace_empty : trimSpace "" = "" := rfl

/-- The trimmed string is empty exactly when every character is white
space (in particular for the empty string). -/
theorem trimSpace_eq_empty_iff (s : String) :
    trimSpace s = "" ↔ ∀ c ∈ s.data, goIsSpace c := by
  constructor
  · intro h c hc
    have h0 :
        ((s.data.dropWhile goIsSpace).reverse.dropWhile goIsSpace).reverse
          = [] := congrArg String.data h
    rw [List.reverse_eq_nil_iff, List.dropWhile_eq_nil_iff] at h0
    rcases (List.mem_append.mp
        ((List.takeWhile_append_dropWhile (p := goIsSpace)
          (l := s.data)) ▸ hc)) with htk | hdr
    · exact List.mem_takeWhile_imp htk
    · exact h0 _ (List.mem_reverse.mpr hdr)
  · intro h
    have h1 : s.data.dropWhile goIsSpace = [] :=
      List.dropWhile_eq_nil_iff.mpr h
    show (⟨_⟩ : String) = ""
    rw [h1]
    rfl

theorem Json.eq_null_of_isNull {j : Json} (h : j.isNull = true) :
    j = .null := by
  cases j <;> first | rfl | simp [Json.isNull] at h

theorem applyField_success (r : APIResponse) (b : Bool) :
    applyField (some r) ("success", .bool b) = some { r with Success := b } :=
  rfl

theorem applyField_message (r : APIResponse) (s : String) :
    applyField (some r) ("message", .str s) = some { r with Message := s } :=
  rfl

theorem applyField_errorCode (r : APIResponse) (s : String) :
    applyField (some r) ("errorCode", .str s) =
      some { r with ErrorCode := some s } :=
  rfl

theorem applyField_data (r : APIResponse) (v : Json) :
    applyField (some r) ("data", v) = some { r with Data := v } :=
  rfl

theorem applyField_meta (r : APIResponse) (v : Json) :
    applyField (some r) ("meta", v) = some { r with Meta := v } :=
  rfl

/-! ## Claim theorems -/

/-- C1: for every status code `s < 400`, `Error` (the spec's
`ConstructError`) fails fatally; for every `s ≥ 400` it delegates to the
raw constructor with `success = false` and data absent, so any envelope it
returns has `success = false`. -/
theorem error_requires_error_status (s : Int) (msg ec : String) :
    (s < 400 → Error s msg ec = none) ∧
    (400 ≤ s →
      Error s msg ec = some (NewAPIResponse s false msg ec .null) ∧
      ∀ r, Error s msg ec = some r → r.Success = false ∧ r.Data = .null) := by
  refine ⟨fun h => by simp [Error, h], fun h => ?_⟩
  have h' : ¬ s < 400 := not_lt.mpr h
  refine ⟨by simp [Error, h'], fun r hr => ?_⟩
  simp only [Error, h', if_false, Option.some.injEq] at hr
  subst hr
  exact ⟨rfl, rfl⟩

theorem error_requires_error_status_witness :
    ((200 : Int) < 400 ∧ Error 200 "m" "E" = none) ∧
    ((400 : Int) ≤ 403 ∧
      Error 403 "Access denied" "AUTH_001" =
        some (NewAPIResponse 403 false "Access denied" "AUTH_001" .null)) :=
  ⟨⟨by decide, (error_requires_error_status 200 "m" "E").1 (by decide)⟩,
   ⟨by decide,
    ((error_requires_error_status 403 "Access denied" "AUTH_001").2
      (by decide)).1⟩⟩

/-- C2: for every status code `s ≥ 400`, `Success` (the spec's
`ConstructSuccess`) fails fatally; for every `s < 400` it returns an
envelope with `success = true` and `errorCode` absent. -/
theorem success_requires_success_status (s : Int) (msg : String)
    (data : Json) :
    (400 ≤ s → Success s msg data = none) ∧
    (s < 400 →
      Success s msg data = some (NewAPIResponse s true
        (if msg = "" then "Request was successful" else msg) "" data) ∧
      ∀ r, Success s msg data = some r →
        r.Success = true ∧ r.ErrorCode = none) := by
  refine ⟨fun h => by simp [Success, h], fun h => ?_⟩
  have h' : ¬ s ≥ 400 := not_le.mpr h
  refine ⟨by simp [Success, h'], fun r hr => ?_⟩
  simp only [Success, h', if_false, Option.some.injEq] at hr
  subst hr
  exact ⟨rfl, rfl⟩

theorem success_requires_success_status_witness :
    ((400 : Int) ≤ 500 ∧ Success 500 "m" .null = none) ∧
    ((201 : Int) < 400 ∧
      Success 201 "done" (.num 1) =
        some (NewAPIResponse 201 true "done" "" (.num 1))) :=
  ⟨⟨by decide, (success_requires_success_status 500 "m" .null).1 (by decide)⟩,
   ⟨by decide,
    by
      have h :=
        ((success_requires_success_status 201 "done" (.num 1)).2
          (by decide)).1
      simpa using h⟩⟩

/-- C3: `NewAPIResponse` (the spec's `Construct`) normalizes the error
code: a code with any non-white-space content is kept and round-trips
verbatim; an empty or whitespace-only code becomes absent; consequently a
present error code is never the empty string. -/
theorem construct_normalizes_errorCode (s : Int) (b : Bool) (msg c : String)
    (d : Json) :
    (trimSpace c ≠ "" → (NewAPIResponse s b msg c d).ErrorCode = some c) ∧
    (c = "" ∨ trimSpace c = "" →
      (NewAPIResponse s b msg c d).ErrorCode = none) ∧
    (∀ x, (NewAPIResponse s b msg c d).ErrorCode = some x → x ≠ "") := by
  refine ⟨fun h => by simp [NewAPIResponse, h], fun h => ?_, fun x hx => ?_⟩
  · have he : trimSpace c = "" := by
      rcases h with rfl | h
      · rfl
      · exact h
    simp [NewAPIResponse, he]
  · by_cases hc : trimSpace c = ""
    · simp [NewAPIResponse, hc] at hx
    · simp only [NewAPIResponse, hc, if_false, Option.some.injEq] at hx
      subst hx
      intro h0
      subst h0
      exact hc trimSpace_empty

theorem construct_normalizes_errorCode_witness :
    (trimSpace "AUTH_001" ≠ "" ∧
      (NewAPIResponse 403 false "m" "AUTH_001" .null).ErrorCode =
        some "AUTH_001") ∧
    (((" \t" : String) = "" ∨ trimSpace " \t" = "") ∧
      (NewAPIResponse 403 false "m" " \t" .null).ErrorCode = none) :=
  ⟨⟨by decide,
    (construct_normalizes_errorCode 403 false "m" "AUTH_001" .null).1
      (by decide)⟩,
   ⟨Or.inr (by decide),
    (construct_normalizes_errorCode 403 false "m" " \t" .null).2.1
      (Or.inr (by decide))⟩⟩

/-- C9: `ListResp` (the source's `List`) with an empty message returns the
envelope with message "Request was successful", status code 200,
`success = true`, `errorCode` absent, the data unchanged and the meta
attached unchanged; `Success` (the spec's `ConstructSuccess`) likewise
substitutes the default whenever its message argument is empty. -/
theorem list_defaults_message_and_meta (s : Int) (data meta : Json) :
    ListResp "" data meta =
      { StatusCode := 200, Success := true,
        Message := "Request was successful", ErrorCode := none,
        Data := data, Meta := meta } ∧
    (s < 400 → Success s "" data =
      some (NewAPIResponse s true "Request was successful" "" data)) := by
  refine ⟨rfl, fun h => ?_⟩
  have h' : ¬ s ≥ 400 := not_le.mpr h
  simp [Success, h']

theorem list_defaults_message_and_meta_witness :
    (ListResp "" (.num 1) (.str "page") =
      { StatusCode := 200, Success := true,
        Message := "Request was successful", ErrorCode := none,
        Data := .num 1, Meta := .str "page" }) ∧
    ((200 : Int) < 400 ∧
      Success 200 "" (.num 1) =
        some (NewAPIResponse 200 true "Request was successful" ""
          (.num 1))) :=
  ⟨(list_defaults_message_and_meta 200 (.num 1) (.str "page")).1,
   by decide,
   (list_defaults_message_and_meta 200 (.num 1) (.str "page")).2
     (by decide)⟩

/-- C10: for every error code containing at least one non-white-space
character, `NewAPIResponse` (the spec's `Construct`) stores the string
verbatim, surrounding white space included: normalization only tests
whether the trimmed string is empty and never trims the stored value. -/
theorem construct_keeps_errorCode_untrimmed (s : Int) (b : Bool)
    (msg c : String) (d : Json)
    (h : ∃ ch ∈ c.data, goIsSpace ch = false) :
    (NewAPIResponse s b msg c d).ErrorCode = some c := by
  have hne : trimSpace c ≠ "" := by
    intro he
    obtain ⟨ch, hmem, hsp⟩ := h
    have := (trimSpace_eq_empty_iff c).mp he ch hmem
    rw [hsp] at this
    exact Bool.false_ne_true this
  simp [NewAPIResponse, hne]

theorem construct_keeps_errorCode_untrimmed_witness :
    (∃ ch ∈ (" AUTH_001 " : String).data, goIsSpace ch = false) ∧
    (NewAPIResponse 403 false "m" " AUTH_001 " .null).ErrorCode =
      some " AUTH_001 " :=
  ⟨by decide,
   construct_keeps_errorCode_untrimmed 403 false "m" " AUTH_001 " .null
     (by decide)⟩

/-- C6: `IsJsonErrorGetDetails` (the spec's `Classify`) maps each
structurally-identified JSON decode error to its specific diagnostic: a
syntax error at offset `o` to "body contains badly-formed JSON (at
character o)", a type mismatch on field `f` at offset `o` to "body
contains incorrect JSON type [for field \"f\"] (at character o)", and an
empty-body end-of-input (`io.EOF`) to "body must not be empty"; the
instances at offset 5 and at field "age", offset 90 produce exactly the
literal messages of the spec. -/
theorem classifier_specific_messages (sm f : String) (o t : Int) :
    IsJsonErrorGetDetails (some (.syntaxError sm o)) =
      (true, some (.generic
        ("body contains badly-formed JSON (at character " ++
          toString o ++ ")"))) ∧
    IsJsonErrorGetDetails (some (.unmarshalTypeError f t)) =
      (true, some (.generic
        ("body contains incorrect JSON type [for field " ++ goQuote f ++
          "] (at character " ++ toString t ++ ")"))) ∧
    IsJsonErrorGetDetails (some .eof) =
      (true, some (.generic "body must not be empty")) ∧
    IsJsonErrorGetDetails (some (.syntaxError "" 5)) =
      (true, some (.generic
        "body contains badly-formed JSON (at character 5)")) ∧
    IsJsonErrorGetDetails (some (.unmarshalTypeError "age" 90)) =
      (true, some (.generic
        "body contains incorrect JSON type [for field \"age\"] (at character 90)")) := by
  refine ⟨rfl, rfl, rfl, by decide, by decide⟩

/-- C7: the classifier is total and never raises: nil input yields
`(false, nil)`, and every error matching none of the JSON-specific kinds
is passed through unchanged with flag `false`. -/
theorem classifier_nil_and_passthrough (e : GoError)
    (h1 : errorsAsSyntaxError e = none)
    (h2 : errorsIsUnexpectedEOF e = false)
    (h3 : errorsAsUnmarshalTypeError e = none)
    (h4 : errorsIsEOF e = false) :
    IsJsonErrorGetDetails none = (false, none) ∧
    IsJsonErrorGetDetails (some e) = (false, some e) :=
  ⟨rfl, by simp [IsJsonErrorGetDetails, h1, h2, h3, h4]⟩

theorem classifier_nil_and_passthrough_witness :
    errorsAsSyntaxError (.generic "x") = none ∧
    errorsIsUnexpectedEOF (.generic "x") = false ∧
    errorsAsUnmarshalTypeError (.generic "x") = none ∧
    errorsIsEOF (.generic "x") = false ∧
    IsJsonErrorGetDetails none = (false, none) ∧
    IsJsonErrorGetDetails (some (.generic "x")) =
      (false, some (.generic "x")) :=
  ⟨rfl, rfl, rfl, rfl,
   (classifier_nil_and_passthrough (.generic "x") rfl rfl rfl rfl).1,
   (classifier_nil_and_passthrough (.generic "x") rfl rfl rfl rfl).2⟩

/-- C8: the classifier checks its cases in the stated fixed order with the
first match winning: nil, then syntax error, then unexpected end of input,
then type mismatch, then empty-body end of input, then passthrough; in
particular a syntax-error match decides the result regardless of any other
kind the error also matches, and each later case applies only when the
earlier ones do not. -/
theorem classifier_first_match_order (e : GoError) (sm f : String)
    (o t : Int) :
    (IsJsonErrorGetDetails none = (false, none)) ∧
    (errorsAsSyntaxError e = some (sm, o) →
      IsJsonErrorGetDetails (some e) =
        (true, some (.generic
          ("body contains badly-formed JSON (at character " ++
            toString o ++ ")")))) ∧
    (errorsAsSyntaxError e = none → errorsIsUnexpectedEOF e = true →
      IsJsonErrorGetDetails (some e) =
        (true, some (.generic "body contains badly-formed JSON"))) ∧
    (errorsAsSyntaxError e = none → errorsIsUnexpectedEOF e = false →
      errorsAsUnmarshalTypeError e = some (f, t) →
      IsJsonErrorGetDetails (some e) =
        (true, some (.generic
          ("body contains incorrect JSON type [for field " ++ goQuote f ++
            "] (at character " ++ toString t ++ ")")))) ∧
    (errorsAsSyntaxError e = none → errorsIsUnexpectedEOF e = false →
      errorsAsUnmarshalTypeError e = none → errorsIsEOF e = true →
      IsJsonErrorGetDetails (some e) =
        (true, some (.generic "body must not be empty"))) ∧
    (errorsAsSyntaxError e = none → errorsIsUnexpectedEOF e = false →
      errorsAsUnmarshalTypeError e = none → errorsIsEOF e = false →
      IsJsonErrorGetDetails (some e) = (false, some e)) := by
  refine ⟨rfl, fun hs => ?_, fun hs hu => ?_, fun hs hu ht => ?_,
    fun hs hu ht he => ?_, fun hs hu ht he => ?_⟩ <;>
    simp [IsJsonErrorGetDetails, hs]
  · simp [hu]
  · simp [hu, ht]
  · simp [hu, ht, he]
  · simp [hu, ht, he]

theorem classifier_first_match_order_witness :
    (errorsAsSyntaxError
        (.wrapf2 "ctx" (.wrapf "a" .eof) (.syntaxError "bad" 7)) =
          some ("bad", 7) ∧
      errorsIsEOF
        (.wrapf2 "ctx" (.wrapf "a" .eof) (.syntaxError "bad" 7)) = true ∧
      IsJsonErrorGetDetails
        (some (.wrapf2 "ctx" (.wrapf "a" .eof) (.syntaxError "bad" 7))) =
        (true, some (.generic
          ("body contains badly-formed JSON (at character " ++
            toString (7 : Int) ++ ")")))) ∧
    IsJsonErrorGetDetails (some (.wrapf "b" .errUnexpectedEOF)) =
      (true, some (.generic "body contains badly-formed JSON")) ∧
    IsJsonErrorGetDetails
        (some (.wrapf "c" (.unmarshalTypeError "age" 90))) =
      (true, some (.generic
        ("body contains incorrect JSON type [for field " ++
          goQuote "age" ++ "] (at character " ++ toString (90 : Int) ++
          ")"))) ∧
    IsJsonErrorGetDetails (some (.wrapf "d" .eof)) =
      (true, some (.generic "body must not be empty")) ∧
    IsJsonErrorGetDetails (some (.generic "x")) =
      (false, some (.generic "x")) :=
  ⟨⟨rfl, rfl,
    (classifier_first_match_order
        (.wrapf2 "ctx" (.wrapf "a" .eof) (.syntaxError "bad" 7))
        "bad" "" 7 0).2.1 rfl⟩,
   (classifier_first_match_order (.wrapf "b" .errUnexpectedEOF)
       "" "" 0 0).2.2.1 rfl rfl,
   (classifier_first_match_order (.wrapf "c" (.unmarshalTypeError "age" 90))
       "" "age" 0 90).2.2.2.1 rfl rfl rfl,
   (classifier_first_match_order (.wrapf "d" .eof)
       "" "" 0 0).2.2.2.2.1 rfl rfl rfl rfl,
   (classifier_first_match_order (.generic "x")
       "" "" 0 0).2.2.2.2.2 rfl rfl rfl rfl⟩

/-- Folding the optional `data` and `meta` members over an envelope whose
`Data` and `Meta` are still at their zero values restores exactly the
serialized `Data` and `Meta`. -/
theorem foldl_tail (st : Int) (su : Bool) (m : String) (ec : Option String)
    (d mt : Json) :
    List.foldl applyField (some ⟨st, su, m, ec, .null, .null⟩)
      ((if d.isNull then [] else [("data", d)]) ++
        (if mt.isNull then [] else [("meta", mt)])) =
      some ⟨st, su, m, ec, d, mt⟩ := by
  cases hd : d.isNull <;> cases hm : mt.isNull
  · simp [hd, hm, applyField_data, applyField_meta]
  · obtain rfl := Json.eq_null_of_isNull hm
    simp [hd, Json.isNull, applyField_data]
  · obtain rfl := Json.eq_null_of_isNull hd
    simp [hm, Json.isNull, applyField_meta]
  · obtain rfl := Json.eq_null_of_isNull hd
    obtain rfl := Json.eq_null_of_isNull hm
    simp [Json.isNull]

/-- C4: for every envelope, serializing to JSON (`ToJson`, which succeeds
on every envelope of the model) and parsing the output back
(`FromJsonToAPIResponse`) succeeds and returns an envelope agreeing with
the original on `success`, `message`, `errorCode`, `data` and `meta`,
while the status code of the result is the zero value regardless of the
original's. -/
theorem serializeJSON_parseJSON_roundtrip (r : APIResponse) :
    FromJsonToAPIResponse (ToJson r) = some { r with StatusCode := 0 } := by
  obtain ⟨st, su, m, ec, d, mt⟩ := r
  cases ec with
  | none =>
      simp only [ToJson, FromJsonToAPIResponse, List.append_assoc,
        List.cons_append, List.nil_append, List.foldl_cons,
        applyField_success, applyField_message]
      exact foldl_tail 0 su m none d mt
  | some c =>
      simp only [ToJson, FromJsonToAPIResponse, List.append_assoc,
        List.cons_append, List.nil_append, List.foldl_cons,
        applyField_success, applyField_message, applyField_errorCode]
      exact foldl_tail 0 su m (some c) d mt

/-- Member access in a JSON object, for stating facts about the wire
format: the value of the first member carrying the given key, if any. -/
def lookupField : List (String × Json) → String → Option Json
  | [], _ => none
  | (k, v) :: rest, key => if k = key then some v else lookupField rest key

def Json.getField : Json → String → Option Json
  | .obj fields, key => lookupField fields key
  | _, _ => none

/-- C5: for every envelope satisfying the constructor invariant that a
present error code is non-empty, the JSON produced by `ToJson` is an
object that always contains the members `success` and `message`, contains
`errorCode` exactly when a non-empty error code is present, contains
`data` and `meta` exactly when set (non-nil), and never contains
`statusCode`. -/
theorem serializeJSON_wire_format (r : APIResponse)
    (hinv : ∀ c, r.ErrorCode = some c → c ≠ "") :
    (∃ fs, ToJson r = Json.obj fs) ∧
    (ToJson r).getField "success" = some (.bool r.Success) ∧
    (ToJson r).getField "message" = some (.str r.Message) ∧
    (((ToJson r).getField "errorCode").isSome ↔
      ∃ c, r.ErrorCode = some c ∧ c ≠ "") ∧
    (((ToJson r).getField "data").isSome ↔ r.Data.isNull = false) ∧
    (((ToJson r).getField "meta").isSome ↔ r.Meta.isNull = false) ∧
    (ToJson r).getField "statusCode" = none := by
  obtain ⟨st, su, m, ec, d, mt⟩ := r
  cases ec <;> cases hd : d.isNull <;> cases hm : mt.isNull <;>
    simp_all [ToJson, Json.getField, lookupField]

theorem serializeJSON_wire_format_witness :
    (∀ c, (APIResponse.mk 403 false "oops" (some "E1") .null .null).ErrorCode
        = some c → c ≠ "") ∧
    ((∃ fs, ToJson ⟨403, false, "oops", some "E1", .null, .null⟩ =
        Json.obj fs) ∧
      (ToJson ⟨403, false, "oops", some "E1", .null, .null⟩).getField
          "success" = some (.bool false) ∧
      (ToJson ⟨403, false, "oops", some "E1", .null, .null⟩).getField
          "message" = some (.str "oops") ∧
      (((ToJson ⟨403, false, "oops", some "E1", .null, .null⟩).getField
          "errorCode").isSome ↔
        ∃ c, (APIResponse.mk 403 false "oops" (some "E1") .null
            .null).ErrorCode = some c ∧ c ≠ "") ∧
      (((ToJson ⟨403, false, "oops", some "E1", .null, .null⟩).getField
          "data").isSome ↔
        (Json.null).isNull = false) ∧
      (((ToJson ⟨403, false, "oops", some "E1", .null, .null⟩).getField
          "meta").isSome ↔
        (Json.null).isNull = false) ∧
      (ToJson ⟨403, false, "oops", some "E1", .null, .null⟩).getField
          "statusCode" = none) := by
  have hinv : ∀ c,
      (APIResponse.mk 403 false "oops" (some "E1") .null .null).ErrorCode
        = some c → c ≠ "" := by
    intro c hc
    rw [show (APIResponse.mk 403 false "oops" (some "E1") .null
        .null).ErrorCode = some "E1" from rfl, Option.some.injEq] at hc
    subst hc
    decide
  exact ⟨hinv,
    serializeJSON_wire_format ⟨403, false, "oops", some "E1", .null, .null⟩
      hinv⟩

end GoResponse
